import Mathlib

/-!
# Verification of the mcptool interactive session engine

Shallow embedding of `crates/libmcptool/src/connect.rs` (the interactive
session loop, the blocking line-source thread, and the notification relay)
and `crates/libmcptool/src/mcp.rs` (the `set_level` and `calltool` client
commands) from the `cortesi/mcptool` repository.

Conventions of the embedding:
* Fallible Rust functions returning `Result<T, Error>` become Lean functions
  returning `Except String T`; the `Error::Other(msg)` payload is the string.
* Side effects (terminal rendering, network requests, stdin reads) are made
  explicit: each modelled function returns the ordered list of effects it
  performs together with its result value.
* External collaborators that are not part of this repository (the clap
  command parser, the protocol client's per-operation calls, the argument
  parser submodules) are parameters (oracles) of the modelled functions.
* Rust `str::to_lowercase` / `str::trim` / `str::split_whitespace` are
  modelled by `rustToLowercase` / `rustTrim` / `splitWhitespace` below
  (basic-latin case mapping, structural on the character list; all strings
  the code compares against are ASCII).
-/

namespace Mcptool

/-! ## Logging levels (`tmcp::schema::LoggingLevel`) and `set_level`
(`mcp.rs` lines 88-121) -/

/-- The eight MCP logging levels, as in `tmcp::schema::LoggingLevel`. -/
inductive LoggingLevel where
  | debug | info | notice | warning | error | critical | alert | emergency
  deriving DecidableEq, Repr

/-- Model of Rust `str::to_lowercase` (basic-latin case mapping, written
structurally on the character list so it computes inside the kernel). -/
def rustToLowercase (s : String) : String := ⟨s.data.map Char.toLower⟩

/-- The level-string parsing performed inside `set_level` (`mcp.rs` 96-111):
the input is lowercased and matched against the eight level names. -/
def parseLoggingLevel (level : String) : Option LoggingLevel :=
  match rustToLowercase level with
  | "debug" => some .debug
  | "info" => some .info
  | "notice" => some .notice
  | "warning" => some .warning
  | "error" => some .error
  | "critical" => some .critical
  | "alert" => some .alert
  | "emergency" => some .emergency
  | _ => none

/-- Observable effects of `set_level`: terminal rendering via `output`, and
the network request `client.set_level(level)`. -/
inductive SetLevelEffect where
  | text (s : String)
  | request (l : LoggingLevel)
  | traceSuccess (s : String)
  deriving DecidableEq, Repr

/-- The error message produced for an unrecognised level string. -/
def invalidLevelMsg (level : String) : String :=
  "Invalid logging level: " ++ level ++
    ". Valid levels are: debug, info, notice, warning, error, critical, alert, emergency"

/-- `set_level` (`mcp.rs` 88-121). `requestOutcome` is the oracle for the
network call `client.set_level(logging_level)` (an external collaborator).
Returns the ordered effect trace and the result. -/
def set_level (requestOutcome : LoggingLevel → Except String Unit)
    (level : String) : List SetLevelEffect × Except String Unit :=
  let e0 := SetLevelEffect.text ("Setting logging level to: " ++ level)
  match parseLoggingLevel level with
  | none => ([e0], Except.error (invalidLevelMsg level))
  | some l =>
    match requestOutcome l with
    | Except.error e => ([e0, SetLevelEffect.request l], Except.error e)
    | Except.ok _ =>
        ([e0, SetLevelEffect.request l,
          SetLevelEffect.traceSuccess ("Set logging level to: " ++ level)],
         Except.ok ())

/-- Basic-latin lowercasing maps into the non-uppercase range, so applying it
twice is the same as applying it once. -/
theorem char_toLower_toLower (c : Char) : c.toLower.toLower = c.toLower := by
  unfold Char.toLower
  by_cases h : c.toNat ≥ 65 ∧ c.toNat ≤ 90
  · have hv : (c.toNat + 32).isValidChar := by
      left
      omega
    have hn : (Char.ofNat (c.toNat + 32)).toNat = c.toNat + 32 := by
      unfold Char.ofNat
      rw [dif_pos hv]
      rfl
    simp only [if_pos h, hn]
    have : ¬(c.toNat + 32 ≥ 65 ∧ c.toNat + 32 ≤ 90) := by omega
    rw [if_neg this]
  · rw [if_neg h, if_neg h]

/-- Lowercasing a string is idempotent. -/
theorem rustToLowercase_idem (s : String) :
    rustToLowercase (rustToLowercase s) = rustToLowercase s := by
  simp only [rustToLowercase, List.map_map, Function.comp]
  congr 1
  apply List.map_congr_left
  intro c _
  exact char_toLower_toLower c

/-- C9: `set_level` is case-insensitive in its level argument: the parse
decision depends only on the lowercased string, each of the eight level names
is accepted (in any character case, by the first conjunct) and mapped to its
`LoggingLevel`, and any other string is rejected — the call returns the
usage error after rendering only the announcement text, so no request is
sent to the server. -/
theorem set_level_case_insensitive
    (requestOutcome : LoggingLevel → Except String Unit) (level : String) :
    parseLoggingLevel level = parseLoggingLevel (rustToLowercase level)
    ∧ (parseLoggingLevel "debug" = some LoggingLevel.debug
       ∧ parseLoggingLevel "info" = some LoggingLevel.info
       ∧ parseLoggingLevel "notice" = some LoggingLevel.notice
       ∧ parseLoggingLevel "warning" = some LoggingLevel.warning
       ∧ parseLoggingLevel "error" = some LoggingLevel.error
       ∧ parseLoggingLevel "critical" = some LoggingLevel.critical
       ∧ parseLoggingLevel "alert" = some LoggingLevel.alert
       ∧ parseLoggingLevel "emergency" = some LoggingLevel.emergency)
    ∧ (parseLoggingLevel level = none →
        set_level requestOutcome level
          = ([SetLevelEffect.text ("Setting logging level to: " ++ level)],
             Except.error (invalidLevelMsg level))) := by
  refine ⟨?_, ?_, ?_⟩
  · unfold parseLoggingLevel
    rw [rustToLowercase_idem]
  · refine ⟨?_, ?_, ?_, ?_, ?_, ?_, ?_, ?_⟩ <;> decide
  · intro h
    simp only [set_level, h]

/-- Witness for C9 at concrete inputs: `"DEBUG"` parses the same as
`"debug"`, and the unrecognised level `"bogus"` is rejected with no request
effect. -/
theorem set_level_case_insensitive_witness :
    parseLoggingLevel "DEBUG" = parseLoggingLevel "debug"
    ∧ set_level (fun _ => Except.ok ()) "bogus"
        = ([SetLevelEffect.text "Setting logging level to: bogus"],
           Except.error (invalidLevelMsg "bogus")) := by
  constructor
  · have h := (set_level_case_insensitive (fun _ => Except.ok ()) "DEBUG").1
    have e : rustToLowercase "DEBUG" = "debug" := by decide
    rw [e] at h
    exact h
  · exact (set_level_case_insensitive (fun _ => Except.ok ()) "bogus").2.2
      (by decide)

/-! ## Server notifications and their rendering
(`connect.rs` lines 171-221, `display_notification`) -/

/-- The Rust `Debug` rendering of a `LoggingLevel`, used by
`display_notification` through the `{:?}` format specifier. -/
def LoggingLevel.debugRepr : LoggingLevel → String
  | .debug => "Debug"
  | .info => "Info"
  | .notice => "Notice"
  | .warning => "Warning"
  | .error => "Error"
  | .critical => "Critical"
  | .alert => "Alert"
  | .emergency => "Emergency"

/-- `tmcp::schema::ServerNotification`, restricted to the structure that
`display_notification` inspects. Opaque payloads (the JSON `data`, the
request id, the progress token and numbers) are modelled by their rendered
text, since the code only ever formats them. -/
inductive ServerNotification where
  | loggingMessage (level : LoggingLevel) (logger : Option String) (data : String)
  | resourceUpdated (uri : String)
  | resourceListChanged
  | toolListChanged
  | promptListChanged
  | cancelled (requestId : String) (reason : Option String)
  | progress (progressToken : String) (progressValue : String)
      (total : Option String) (message : Option String)
  deriving DecidableEq, Repr

/-- The rendering primitives of the `Output` collaborator that the session
loop calls (`ctx.output.*`); `initResult` stands for
`output::initresult::init_result` applied to the captured handshake. -/
inductive Render where
  | text (s : String)
  | traceSuccess (s : String)
  | traceError (s : String)
  | note (s : String)
  | h1 (s : String)
  | initResult
  deriving DecidableEq, Repr

/-- `display_notification` (`connect.rs` 171-221): each notification variant
is rendered as one `output.text` line. -/
def display_notification : ServerNotification → Render
  | .loggingMessage level logger data =>
      .text ("[NOTIFICATION] " ++ level.debugRepr ++ " [" ++ logger.getD "server"
        ++ "]: " ++ data)
  | .resourceUpdated uri => .text ("[NOTIFICATION] Resource updated: " ++ uri)
  | .resourceListChanged => .text "[NOTIFICATION] Resource list changed"
  | .toolListChanged => .text "[NOTIFICATION] Tool list changed"
  | .promptListChanged => .text "[NOTIFICATION] Prompt list changed"
  | .cancelled requestId reason =>
      .text ("[NOTIFICATION] Request cancelled: " ++ requestId ++ " ("
        ++ reason.getD "no reason given" ++ ")")
  | .progress progressToken progressValue total message =>
      .text ("[NOTIFICATION] Progress " ++ progressToken ++ ": " ++ progressValue
        ++ (total.map ("/" ++ ·)).getD "" ++ " - " ++ message.getD "")

/-! ## The notification relay (`connect.rs` 16-31) -/

/-- A tokio unbounded mpsc channel, seen from the sender side: whether the
receiving half still exists, and the buffered messages in send order. -/
structure UnboundedChannel (α : Type) where
  receiverAlive : Bool
  buffer : List α
  deriving DecidableEq, Repr

/-- `UnboundedSender::send`: appends the message if the receiver still
exists; if the receiver was dropped, the message is discarded and an error
is returned. It never blocks (modelled as a total function). -/
def channelSend {α : Type} (ch : UnboundedChannel α) (a : α) :
    UnboundedChannel α × Except String Unit :=
  if ch.receiverAlive then
    ({ ch with buffer := ch.buffer ++ [a] }, Except.ok ())
  else (ch, Except.error "channel closed")

/-- `NotificationClientConn::notification` (`connect.rs` 23-30): forward the
notification onto the channel with `let _ = send(..)` (result discarded) and
return `Ok(())` unconditionally. -/
def NotificationClientConn.notification
    (ch : UnboundedChannel ServerNotification) (n : ServerNotification) :
    UnboundedChannel ServerNotification × Except String Unit :=
  ((channelSend ch n).1, Except.ok ())

/-! ## The line-source thread (`connect.rs` 61-89) -/

/-- `rustyline::error::ReadlineError`, as discriminated by the session loop;
all variants other than `Interrupted` and `Eof` are modelled by their debug
text. -/
inductive ReadlineError where
  | interrupted
  | eof
  | other (msg : String)
  deriving DecidableEq, Repr

/-- Model of Rust `str::trim` (structural on the character list). -/
def rustTrim (s : String) : String :=
  ⟨((s.data.dropWhile (·.isWhitespace)).reverse.dropWhile (·.isWhitespace)).reverse⟩

/-- Observable actions of the line-source thread's loop body. -/
inductive ThreadAct where
  | addHistory (line : String)
  | emitLine (line : String)
  | emitErr (e : ReadlineError)
  | waitPrompt
  deriving DecidableEq, Repr

/-- One iteration of the line-source thread (`connect.rs` 66-86), given the
outcome of `rl.readline("mcp> ")` and whether the two channels are still
open (`sendOk`: the line channel's receiver is alive; `promptOk`: the
pacing channel's sender is alive). Returns the ordered actions of this
iteration and whether the thread loops again. -/
def lineSourceIteration (sendOk promptOk : Bool) :
    Except ReadlineError String → List ThreadAct × Bool
  | .ok line =>
      let line := rustTrim line
      if line = "" then ([], true)
      else if sendOk then
        ([.addHistory line, .emitLine line, .waitPrompt], promptOk)
      else ([.addHistory line], false)
  | .error e => ([.emitErr e], false)

/-! ## The session loop (`connect.rs` 94-166) -/

/-- Model of Rust `str::split_whitespace`: the maximal runs of
non-whitespace characters, in order. -/
def splitWhitespace (s : String) : List String :=
  ((s.data.splitOnP (·.isWhitespace)).map fun l => (⟨l⟩ : String)).filter (· ≠ "")

/-- The `tokio::select!` branch that fired in one iteration of the session
loop, together with the received value: either the notification receiver
became ready (`none` = channel closed) or the line-input receiver became
ready (`none` = channel closed, i.e. the line-source thread exited). -/
inductive LoopEvent where
  | notificationReady (n : Option ServerNotification)
  | inputReady (m : Option (Except ReadlineError String))
  deriving Repr

/-- The observable outcome of one session-loop iteration: the renders it
performed, how many pacing signals it sent on `prompt_tx`, whether it left
the loop (`break`), and the commands it dispatched via
`execute_mcp_command_with_client`. -/
structure IterOut (Cmd : Type) where
  renders : List Render
  promptSignals : Nat
  exits : Bool
  dispatched : List Cmd
  deriving DecidableEq, Repr

/-- One iteration of the session loop of `connect_command`
(`connect.rs` 94-166). External collaborators are parameters: `parse` is
`ReplCommandWrapper::try_parse_from` (clap), `dispatch` is
`execute_mcp_command_with_client` against the open client (its outcome
includes any network effect), and `helpText` is `generate_repl_help()`. -/
def connectLoopIteration {Cmd : Type}
    (parse : List String → Except String Cmd)
    (dispatch : Cmd → Except String Unit)
    (helpText : String) : LoopEvent → IterOut Cmd
  | .notificationReady none => ⟨[], 0, false, []⟩
  | .notificationReady (some n) => ⟨[display_notification n], 0, false, []⟩
  | .inputReady none => ⟨[], 0, true, []⟩
  | .inputReady (some (.error .interrupted)) => ⟨[.text "CTRL-C"], 0, true, []⟩
  | .inputReady (some (.error .eof)) => ⟨[.text "CTRL-D"], 0, true, []⟩
  | .inputReady (some (.error (.other msg))) =>
      ⟨[.traceError ("Error: " ++ msg)], 0, true, []⟩
  | .inputReady (some (.ok line)) =>
      if line = "quit" ∨ line = "exit" then
        ⟨[.text "Goodbye!"], 0, true, []⟩
      else if line = "help" then
        ⟨[.h1 "Available commands", .text helpText], 1, false, []⟩
      else if line = "init" then
        ⟨[.note "Showing initialization result from initial connection (not re-initializing)",
          .initResult], 1, false, []⟩
      else
        match parse (splitWhitespace line) with
        | .ok cmd =>
            match dispatch cmd with
            | .ok _ => ⟨[], 1, false, [cmd]⟩
            | .error e => ⟨[.traceError ("Command failed: " ++ e)], 1, false, [cmd]⟩
        | .error e =>
            ⟨[.traceError ("Invalid command: " ++ e),
              .text "Type \x27help\x27 for available commands."], 1, false, []⟩

/-- The session loop run to completion over a schedule of select outcomes:
events are handled in order until an iteration breaks out of the loop (or
the schedule is exhausted); the outcomes of the executed iterations are
returned in order. -/
def connectSessionRun {Cmd : Type}
    (parse : List String → Except String Cmd)
    (dispatch : Cmd → Except String Unit)
    (helpText : String) : List LoopEvent → List (IterOut Cmd)
  | [] => []
  | e :: rest =>
      let r := connectLoopIteration parse dispatch helpText e
      if r.exits then [r]
      else r :: connectSessionRun parse dispatch helpText rest

/-- C4: the notification handler always returns `Ok(())` to the protocol
client (it is a total function, so it never blocks), forwards the event
unmodified (appended as-is) when the receiving end is alive, and is a silent
no-op on the channel state when the receiving end has been dropped. -/
theorem notification_relay_contract
    (ch : UnboundedChannel ServerNotification) (n : ServerNotification) :
    (NotificationClientConn.notification ch n).2 = Except.ok ()
    ∧ (NotificationClientConn.notification ch n).1.buffer
        = (if ch.receiverAlive then ch.buffer ++ [n] else ch.buffer)
    ∧ (NotificationClientConn.notification ch n).1.receiverAlive
        = ch.receiverAlive := by
  unfold NotificationClientConn.notification channelSend
  by_cases h : ch.receiverAlive <;> simp [h]

/-- C5: typing `quit` or `exit` renders exactly the farewell, exits the loop
(`exits = true`, and the session run stops there, processing no further
events), and dispatches no protocol command (`dispatched = []`). -/
theorem quit_exit_closes_session {Cmd : Type}
    (parse : List String → Except String Cmd)
    (dispatch : Cmd → Except String Unit)
    (helpText : String) (rest : List LoopEvent) :
    connectLoopIteration parse dispatch helpText (.inputReady (some (.ok "quit")))
      = ⟨[.text "Goodbye!"], 0, true, []⟩
    ∧ connectLoopIteration parse dispatch helpText (.inputReady (some (.ok "exit")))
      = ⟨[.text "Goodbye!"], 0, true, []⟩
    ∧ connectSessionRun parse dispatch helpText
        (.inputReady (some (.ok "quit")) :: rest)
      = [⟨[.text "Goodbye!"], 0, true, []⟩]
    ∧ connectSessionRun parse dispatch helpText
        (.inputReady (some (.ok "exit")) :: rest)
      = [⟨[.text "Goodbye!"], 0, true, []⟩] :=
  ⟨rfl, rfl, rfl, rfl⟩

/-- C2: handling any successful line that does not end the session (any line
other than `quit`/`exit`: help, init, a parsed-and-dispatched command with
either dispatch outcome, or a parse failure) sends exactly one pacing signal
on `prompt_tx` and keeps the loop running; the notification branch never
sends a pacing signal. -/
theorem reprompt_signal_exactly_once {Cmd : Type}
    (parse : List String → Except String Cmd)
    (dispatch : Cmd → Except String Unit)
    (helpText : String) (line : String)
    (hq : line ≠ "quit") (hx : line ≠ "exit") :
    ((connectLoopIteration parse dispatch helpText
        (.inputReady (some (.ok line)))).promptSignals = 1
      ∧ (connectLoopIteration parse dispatch helpText
          (.inputReady (some (.ok line)))).exits = false)
    ∧ ∀ n : Option ServerNotification,
        (connectLoopIteration parse dispatch helpText
          (.notificationReady n)).promptSignals = 0 := by
  constructor
  · simp only [connectLoopIteration]
    rw [if_neg (by rintro (h | h); exacts [hq h, hx h])]
    by_cases h1 : line = "help"
    · rw [if_pos h1]
      exact ⟨rfl, rfl⟩
    · rw [if_neg h1]
      by_cases h2 : line = "init"
      · rw [if_pos h2]
        exact ⟨rfl, rfl⟩
      · rw [if_neg h2]
        cases hp : parse (splitWhitespace line) with
        | ok cmd =>
            dsimp only
            cases hd : dispatch cmd with
            | ok _ => exact ⟨rfl, rfl⟩
            | error e => exact ⟨rfl, rfl⟩
        | error e => exact ⟨rfl, rfl⟩
  · intro n
    cases n <;> rfl

/-- Witness for C2 at a concrete input: the line `help` (with concrete
parse/dispatch oracles) gets exactly one pacing signal and does not exit,
and the notification branch sends none. -/
theorem reprompt_signal_exactly_once_witness :
    ((connectLoopIteration (fun _ => Except.error "unused")
        (fun (_ : Unit) => Except.ok ()) "helptext"
        (.inputReady (some (.ok "help")))).promptSignals = 1
      ∧ (connectLoopIteration (fun _ => Except.error "unused")
          (fun (_ : Unit) => Except.ok ()) "helptext"
          (.inputReady (some (.ok "help")))).exits = false)
    ∧ ∀ n : Option ServerNotification,
        (connectLoopIteration (fun _ => Except.error "unused")
          (fun (_ : Unit) => Except.ok ()) "helptext"
          (.notificationReady n)).promptSignals = 0 :=
  reprompt_signal_exactly_once _ _ "helptext" "help" (by decide) (by decide)

/-- C6: a line whose trimmed form is empty makes the line-source thread
perform no action at all — no history entry, no emitted `LineEvent`, no wait
on the pacing channel — and loop again (re-prompt on its own). -/
theorem empty_line_no_event (sendOk promptOk : Bool) (line : String)
    (h : rustTrim line = "") :
    lineSourceIteration sendOk promptOk (.ok line) = ([], true) := by
  unfold lineSourceIteration
  simp [h]

/-- Witness for C6 at a concrete input: a whitespace-only line. -/
theorem empty_line_no_event_witness :
    lineSourceIteration true true (.ok "   ") = ([], true) :=
  empty_line_no_event true true "   " (by decide)

/-- C7: a failed dispatch of a parsed command renders a non-fatal
`Command failed` trace and the loop continues; a line failing
structured-command parsing renders `Invalid command` plus the help hint and
the loop continues — in both cases `exits = false`, so the session handles
the next event. -/
theorem command_failure_not_fatal {Cmd : Type}
    (parse : List String → Except String Cmd)
    (dispatch : Cmd → Except String Unit)
    (helpText : String) (line : String) (cmd : Cmd) (e : String)
    (hq : line ≠ "quit") (hx : line ≠ "exit")
    (hh : line ≠ "help") (hi : line ≠ "init") :
    (parse (splitWhitespace line) = Except.ok cmd →
      dispatch cmd = Except.error e →
      connectLoopIteration parse dispatch helpText (.inputReady (some (.ok line)))
        = ⟨[.traceError ("Command failed: " ++ e)], 1, false, [cmd]⟩)
    ∧ (parse (splitWhitespace line) = Except.error e →
      connectLoopIteration parse dispatch helpText (.inputReady (some (.ok line)))
        = ⟨[.traceError ("Invalid command: " ++ e),
            .text "Type \x27help\x27 for available commands."], 1, false, []⟩) := by
  constructor
  · intro hp hd
    simp only [connectLoopIteration]
    rw [if_neg (by rintro (h | h); exacts [hq h, hx h]), if_neg hh, if_neg hi,
      hp]
    dsimp only
    rw [hd]
  · intro hp
    simp only [connectLoopIteration]
    rw [if_neg (by rintro (h | h); exacts [hq h, hx h]), if_neg hh, if_neg hi,
      hp]

/-- Witness for C7 at concrete inputs: a line whose command dispatch fails,
and a line that fails parsing, each rendered non-fatally. -/
theorem command_failure_not_fatal_witness :
    connectLoopIteration (fun _ => Except.ok ()) (fun (_ : Unit) => Except.error "boom")
        "helptext" (.inputReady (some (.ok "ping")))
      = ⟨[.traceError "Command failed: boom"], 1, false, [()]⟩
    ∧ connectLoopIteration (fun _ => Except.error "bad") (fun (_ : Unit) => Except.ok ())
        "helptext" (.inputReady (some (.ok "frobnicate")))
      = ⟨[.traceError "Invalid command: bad",
          .text "Type \x27help\x27 for available commands."], 1, false, []⟩ :=
  ⟨(command_failure_not_fatal (fun _ => Except.ok ())
      (fun (_ : Unit) => Except.error "boom") "helptext" "ping" () "boom"
      (by decide) (by decide) (by decide) (by decide)).1 rfl rfl,
   (command_failure_not_fatal (fun _ => Except.error "bad")
      (fun (_ : Unit) => Except.ok ()) "helptext" "frobnicate" () "bad"
      (by decide) (by decide) (by decide) (by decide)).2 rfl⟩

/-- C8: each terminal line event — interrupt, end-of-input, any other read
error — renders its acknowledgement (or the error), dispatches nothing, and
exits the loop; the session run stops at that event, so no further events
are processed and no further commands are dispatched. The model is a total
function, so the exit involves no abort or panic. -/
theorem terminal_events_end_session {Cmd : Type}
    (parse : List String → Except String Cmd)
    (dispatch : Cmd → Except String Unit)
    (helpText : String) (msg : String) (rest : List LoopEvent) :
    connectLoopIteration parse dispatch helpText
        (.inputReady (some (.error .interrupted)))
      = ⟨[.text "CTRL-C"], 0, true, []⟩
    ∧ connectLoopIteration parse dispatch helpText
        (.inputReady (some (.error .eof)))
      = ⟨[.text "CTRL-D"], 0, true, []⟩
    ∧ connectLoopIteration parse dispatch helpText
        (.inputReady (some (.error (.other msg))))
      = ⟨[.traceError ("Error: " ++ msg)], 0, true, []⟩
    ∧ connectSessionRun parse dispatch helpText
        (.inputReady (some (.error .interrupted)) :: rest)
      = [⟨[.text "CTRL-C"], 0, true, []⟩]
    ∧ connectSessionRun parse dispatch helpText
        (.inputReady (some (.error .eof)) :: rest)
      = [⟨[.text "CTRL-D"], 0, true, []⟩]
    ∧ connectSessionRun parse dispatch helpText
        (.inputReady (some (.error (.other msg))) :: rest)
      = [⟨[.traceError ("Error: " ++ msg)], 0, true, []⟩] :=
  ⟨rfl, rfl, rfl, rfl, rfl, rfl⟩

/-- C10: when the line-input channel is closed (`recv` returns `None`), the
loop exits silently: no render, no signal, no dispatch, and the session run
stops there. -/
theorem input_channel_closed_silent_exit {Cmd : Type}
    (parse : List String → Except String Cmd)
    (dispatch : Cmd → Except String Unit)
    (helpText : String) (rest : List LoopEvent) :
    connectLoopIteration parse dispatch helpText (.inputReady none)
      = ⟨[], 0, true, []⟩
    ∧ connectSessionRun parse dispatch helpText (.inputReady none :: rest)
      = [⟨[], 0, true, []⟩] :=
  ⟨rfl, rfl⟩

/-! ## `calltool` (`mcp.rs` 124-178) -/

/-- Observable effects of `calltool`: terminal rendering, the `list_tools`
network fetch, the stdin read performed by the JSON argument parser, the
interactive prompting, the `call_tool` network request, and the final result
rendering. -/
inductive CallToolEffect where
  | text (s : String)
  | fetchTools
  | readStdin
  | promptUser
  | callToolRequest (name : String)
  | renderResult
  deriving DecidableEq, Repr

/-- The argument-mode count computed at `mcp.rs` 133-136:
`[!args.is_empty(), interactive, json].iter().filter(|&&x| x).count()`. -/
def modeCount (args : List String) (interactive json : Bool) : Nat :=
  (if args ≠ [] then 1 else 0) + (if interactive then 1 else 0)
    + (if json then 1 else 0)

/-- `calltool` (`mcp.rs` 124-178). Type parameters and oracles stand for the
external collaborators: `Schema` is the declared tool schema
(`tmcp::schema::Tool` minus its name), `Args` the resolved argument set;
`fetchOutcome` is the `client.list_tools(None)` call, `jsonParse` the
stdin-reading `calltool::json::parse_json_arguments`, `interactiveParse` the
schema-consulting `calltool::interactive::parse_interactive_arguments`,
`cmdlineParse` the `calltool::cmdline::parse_command_line_arguments`, and
`callOutcome` the `client.call_tool` request. Returns the ordered effect
trace and the result. -/
def calltool {Schema Args : Type}
    (fetchOutcome : Except String (List (String × Schema)))
    (jsonParse : Except String Args)
    (interactiveParse : String × Schema → Except String Args)
    (cmdlineParse : List String → Except String Args)
    (callOutcome : Args → Except String Unit)
    (tool_name : String) (args : List String) (interactive json : Bool) :
    List CallToolEffect × Except String Unit :=
  if modeCount args interactive json = 0 then
    ([], Except.error
      "Must specify one of: --interactive, --json, or --arg key=value arguments")
  else if modeCount args interactive json > 1 then
    ([], Except.error "Cannot combine --interactive, --json, and --arg modes")
  else
    let eff0 := [CallToolEffect.text ("Calling tool: " ++ tool_name),
      CallToolEffect.fetchTools]
    match fetchOutcome with
    | Except.error e => (eff0, Except.error e)
    | Except.ok tools =>
      match tools.find? (fun t => t.1 == tool_name) with
      | none =>
          (eff0, Except.error ("Tool \x27" ++ tool_name ++ "\x27 not found"))
      | some tool =>
        let parsed : List CallToolEffect × Except String Args :=
          if json then ([.readStdin], jsonParse)
          else if interactive then ([.promptUser], interactiveParse tool)
          else ([], cmdlineParse args)
        match parsed.2 with
        | Except.error e => (eff0 ++ parsed.1, Except.error e)
        | Except.ok a =>
          match callOutcome a with
          | Except.error e =>
              (eff0 ++ parsed.1 ++ [.callToolRequest tool_name], Except.error e)
          | Except.ok _ =>
              (eff0 ++ parsed.1 ++ [.callToolRequest tool_name, .renderResult],
               Except.ok ())

/-- C1: whenever zero or more than one argument-acquisition mode is
selected, `calltool` fails with the corresponding usage error and its effect
trace is empty — no rendering, no network fetch, no stdin read, no prompt,
no request happens before the failure. -/
theorem calltool_mode_exclusivity {Schema Args : Type}
    (fetchOutcome : Except String (List (String × Schema)))
    (jsonParse : Except String Args)
    (interactiveParse : String × Schema → Except String Args)
    (cmdlineParse : List String → Except String Args)
    (callOutcome : Args → Except String Unit)
    (tool_name : String) (args : List String) (interactive json : Bool)
    (h : modeCount args interactive json ≠ 1) :
    calltool fetchOutcome jsonParse interactiveParse cmdlineParse callOutcome
        tool_name args interactive json
      = ([], Except.error (if modeCount args interactive json = 0 then
          "Must specify one of: --interactive, --json, or --arg key=value arguments"
        else "Cannot combine --interactive, --json, and --arg modes")) := by
  unfold calltool
  by_cases h0 : modeCount args interactive json = 0
  · rw [if_pos h0, if_pos h0]
  · rw [if_neg h0, if_pos (by omega), if_neg h0]

/-- Witness for C1 at a concrete input: no mode selected (zero modes), and
both flag modes selected at once (two modes). -/
theorem calltool_mode_exclusivity_witness :
    calltool (Except.ok [("greet", ())]) (Except.ok ()) (fun _ => Except.ok ())
        (fun _ => Except.ok ()) (fun _ => Except.ok ()) "greet" [] false false
      = ([], Except.error
          "Must specify one of: --interactive, --json, or --arg key=value arguments")
    ∧ calltool (Except.ok [("greet", ())]) (Except.ok ()) (fun _ => Except.ok ())
        (fun _ => Except.ok ()) (fun _ => Except.ok ()) "greet" [] true true
      = ([], Except.error "Cannot combine --interactive, --json, and --arg modes") := by
  constructor
  · have h := calltool_mode_exclusivity (Except.ok [("greet", ())]) (Except.ok ())
      (fun _ => Except.ok ()) (fun _ => Except.ok ()) (fun _ => Except.ok ())
      "greet" [] false false (by decide)
    rw [h]
    rfl
  · have h := calltool_mode_exclusivity (Except.ok [("greet", ())]) (Except.ok ())
      (fun _ => Except.ok ()) (fun _ => Except.ok ()) (fun _ => Except.ok ())
      "greet" [] true true (by decide)
    rw [h]
    rfl

/-- C3 counterexample: a JSON-mode tool call that completes successfully yet
whose effect trace contains the tool-schema fetch (`list_tools`) — the fetch
happens in every mode, so JSON-mode argument resolution does not complete
without fetching the tool's declared schema. -/
theorem calltool_json_mode_fetches_schema :
    CallToolEffect.fetchTools ∈
      (calltool (Except.ok [("greet", ())]) (Except.ok ()) (fun _ => Except.ok ())
        (fun _ => Except.ok ()) (fun _ => Except.ok ()) "greet" [] false true).1
    ∧ (calltool (Except.ok [("greet", ())]) (Except.ok ()) (fun _ => Except.ok ())
        (fun _ => Except.ok ()) (fun _ => Except.ok ()) "greet" [] false true).2
      = Except.ok () :=
  ⟨by decide, rfl⟩

/-- C3 amended: the *contents* of the declared schema are consulted only by
the interactive mode — in JSON mode and in inline (cmdline) mode the entire
behaviour of `calltool` (effects and result) is unchanged when the found
tool's schema is replaced by any other — although the `list_tools` fetch
itself is performed in every mode. -/
theorem calltool_schema_only_interactive {Schema Args : Type}
    (fetch₁ fetch₂ : List (String × Schema))
    (jsonParse : Except String Args)
    (interactiveParse : String × Schema → Except String Args)
    (cmdlineParse : List String → Except String Args)
    (callOutcome : Args → Except String Unit)
    (tool_name : String) (args : List String)
    (t₁ t₂ : String × Schema)
    (h₁ : fetch₁.find? (fun t => t.1 == tool_name) = some t₁)
    (h₂ : fetch₂.find? (fun t => t.1 == tool_name) = some t₂) :
    (calltool (Except.ok fetch₁) jsonParse interactiveParse cmdlineParse
        callOutcome tool_name [] false true
      = calltool (Except.ok fetch₂) jsonParse interactiveParse cmdlineParse
          callOutcome tool_name [] false true)
    ∧ (args ≠ [] →
      calltool (Except.ok fetch₁) jsonParse interactiveParse cmdlineParse
          callOutcome tool_name args false false
        = calltool (Except.ok fetch₂) jsonParse interactiveParse cmdlineParse
            callOutcome tool_name args false false) := by
  constructor
  · unfold calltool
    rw [if_neg (by decide), if_neg (by decide), if_neg (by decide),
      if_neg (by decide)]
    simp [h₁, h₂]
  · intro ha
    have hm : modeCount args false false = 1 := by
      simp [modeCount, ha]
    unfold calltool
    rw [if_neg (by omega), if_neg (by omega), if_neg (by omega),
      if_neg (by omega)]
    simp [h₁, h₂]

/-- Witness for the amended C3 at concrete inputs: two fetches returning
different schemas for the same tool name give identical JSON-mode and
cmdline-mode runs. -/
theorem calltool_schema_only_interactive_witness :
    (calltool (Except.ok [("greet", (1 : Nat))]) (Except.ok ())
        (fun _ => Except.ok ()) (fun _ => Except.ok ()) (fun _ => Except.ok ())
        "greet" [] false true
      = calltool (Except.ok [("greet", (2 : Nat))]) (Except.ok ())
          (fun _ => Except.ok ()) (fun _ => Except.ok ()) (fun _ => Except.ok ())
          "greet" [] false true)
    ∧ (calltool (Except.ok [("greet", (1 : Nat))]) (Except.ok ())
        (fun _ => Except.ok ()) (fun _ => Except.ok ()) (fun _ => Except.ok ())
        "greet" ["a=b"] false false
      = calltool (Except.ok [("greet", (2 : Nat))]) (Except.ok ())
          (fun _ => Except.ok ()) (fun _ => Except.ok ()) (fun _ => Except.ok ())
          "greet" ["a=b"] false false) :=
  ⟨(calltool_schema_only_interactive [("greet", 1)] [("greet", 2)]
      (Except.ok ()) (fun _ => Except.ok ()) (fun _ => Except.ok ())
      (fun _ => Except.ok ()) "greet" ["a=b"] ("greet", 1) ("greet", 2)
      (by decide) (by decide)).1,
   (calltool_schema_only_interactive [("greet", 1)] [("greet", 2)]
      (Except.ok ()) (fun _ => Except.ok ()) (fun _ => Except.ok ())
      (fun _ => Except.ok ()) "greet" ["a=b"] ("greet", 1) ("greet", 2)
      (by decide) (by decide)).2 (by decide)⟩

end Mcptool
